import Mathlib

/-!
Verification of the pursuit-steering simulation core (`src/main.ts`):
a target `Spaceship` and a `Pursuer` steering agent advanced by a
`Simulation` state machine.  Scalars are modelled as real numbers and the
three.js vector operations (`add`, `sub`, `multiplyScalar`, `normalize`,
`clampLength`, `length`, dot product) are reproduced with their exact
degenerate-case semantics (`divideScalar(length || 1)`).
-/

/-- 3D vector of real components, modelling `THREE.Vector3`. -/
@[ext] structure Vec3 where
  x : ℝ
  y : ℝ
  z : ℝ

namespace Vec3

instance : Zero Vec3 := ⟨⟨0, 0, 0⟩⟩

instance : Add Vec3 := ⟨fun a b => ⟨a.x + b.x, a.y + b.y, a.z + b.z⟩⟩

instance : Neg Vec3 := ⟨fun a => ⟨-a.x, -a.y, -a.z⟩⟩

instance : Sub Vec3 := ⟨fun a b => ⟨a.x - b.x, a.y - b.y, a.z - b.z⟩⟩

instance : SMul ℝ Vec3 := ⟨fun c a => ⟨c * a.x, c * a.y, c * a.z⟩⟩

@[simp] lemma zero_x : (0 : Vec3).x = 0 := rfl

@[simp] lemma zero_y : (0 : Vec3).y = 0 := rfl

@[simp] lemma zero_z : (0 : Vec3).z = 0 := rfl

@[simp] lemma add_x (a b : Vec3) : (a + b).x = a.x + b.x := rfl

@[simp] lemma add_y (a b : Vec3) : (a + b).y = a.y + b.y := rfl

@[simp] lemma add_z (a b : Vec3) : (a + b).z = a.z + b.z := rfl

@[simp] lemma neg_x (a : Vec3) : (-a).x = -a.x := rfl

@[simp] lemma neg_y (a : Vec3) : (-a).y = -a.y := rfl

@[simp] lemma neg_z (a : Vec3) : (-a).z = -a.z := rfl

@[simp] lemma sub_x (a b : Vec3) : (a - b).x = a.x - b.x := rfl

@[simp] lemma sub_y (a b : Vec3) : (a - b).y = a.y - b.y := rfl

@[simp] lemma sub_z (a b : Vec3) : (a - b).z = a.z - b.z := rfl

@[simp] lemma smul_x (c : ℝ) (a : Vec3) : (c • a).x = c * a.x := rfl

@[simp] lemma smul_y (c : ℝ) (a : Vec3) : (c • a).y = c * a.y := rfl

@[simp] lemma smul_z (c : ℝ) (a : Vec3) : (c • a).z = c * a.z := rfl

/-- Squared Euclidean length, as three.js computes it (`x*x + y*y + z*z`). -/
def lengthSq (v : Vec3) : ℝ := v.x * v.x + v.y * v.y + v.z * v.z

/-- Euclidean length, `Math.sqrt` of the squared length. -/
noncomputable def length (v : Vec3) : ℝ := Real.sqrt v.lengthSq

/-- Dot product. -/
def dot (a b : Vec3) : ℝ := a.x * b.x + a.y * b.y + a.z * b.z

/-- three.js `normalize`: `divideScalar(length || 1)`, so the zero vector
is divided by `1` and stays the zero vector instead of producing NaN. -/
noncomputable def normalize (v : Vec3) : Vec3 :=
  (1 / (if v.length = 0 then 1 else v.length)) • v

/-- three.js `clampLength(lo, hi)`:
`divideScalar(length || 1).multiplyScalar(Math.max(lo, Math.min(hi, length)))`. -/
noncomputable def clampLength (lo hi : ℝ) (v : Vec3) : Vec3 :=
  (max lo (min hi v.length)) • ((1 / (if v.length = 0 then 1 else v.length)) • v)

lemma lengthSq_nonneg (v : Vec3) : 0 ≤ v.lengthSq := by
  unfold lengthSq
  nlinarith [mul_self_nonneg v.x, mul_self_nonneg v.y, mul_self_nonneg v.z]

lemma length_nonneg (v : Vec3) : 0 ≤ v.length := Real.sqrt_nonneg _

lemma lengthSq_eq_zero_iff (v : Vec3) : v.lengthSq = 0 ↔ v = 0 := by
  constructor
  · intro h
    unfold lengthSq at h
    ext <;> simp only [zero_x, zero_y, zero_z] <;>
      nlinarith [mul_self_nonneg v.x, mul_self_nonneg v.y, mul_self_nonneg v.z]
  · intro h
    subst h
    simp [lengthSq]

@[simp] lemma lengthSq_zero : (0 : Vec3).lengthSq = 0 := by simp [lengthSq]

@[simp] lemma length_zero : (0 : Vec3).length = 0 := by
  simp [length]

lemma length_eq_zero_iff (v : Vec3) : v.length = 0 ↔ v = 0 := by
  unfold length
  rw [Real.sqrt_eq_zero (lengthSq_nonneg v)]
  exact lengthSq_eq_zero_iff v

lemma length_smul (c : ℝ) (v : Vec3) : (c • v).length = |c| * v.length := by
  unfold length lengthSq
  simp only [smul_x, smul_y, smul_z]
  rw [show c * v.x * (c * v.x) + c * v.y * (c * v.y) + c * v.z * (c * v.z)
      = c ^ 2 * (v.x * v.x + v.y * v.y + v.z * v.z) by ring]
  rw [Real.sqrt_mul (sq_nonneg c), Real.sqrt_sq_eq_abs]

@[simp] lemma smul_zero_vec (c : ℝ) : c • (0 : Vec3) = 0 := by
  ext <;> simp

@[simp] lemma sub_self_vec (v : Vec3) : v - v = 0 := by
  ext <;> simp

@[simp] lemma zero_sub_vec (v : Vec3) : (0 : Vec3) - v = -v := by
  ext <;> simp

@[simp] lemma dot_zero_left (v : Vec3) : dot 0 v = 0 := by simp [dot]

@[simp] lemma dot_zero_right (v : Vec3) : dot v 0 = 0 := by simp [dot]

@[simp] lemma normalize_zero : (0 : Vec3).normalize = 0 := by
  simp [normalize]

/-- The length of a `clampLength 0 hi` result is at most `hi` (for `0 ≤ hi`). -/
lemma length_clampLength_le (hi : ℝ) (h : 0 ≤ hi) (v : Vec3) :
    (clampLength 0 hi v).length ≤ hi := by
  by_cases hl : v.length = 0
  · have hv : v = 0 := (length_eq_zero_iff v).mp hl
    subst hv
    simp [clampLength, h]
  · have hl0 : 0 < v.length := lt_of_le_of_ne (length_nonneg v) (Ne.symm hl)
    unfold clampLength
    rw [if_neg hl, length_smul, length_smul]
    have h1 : |1 / v.length| = 1 / v.length := abs_of_pos (by positivity)
    have h2 : |max 0 (min hi v.length)| = max 0 (min hi v.length) :=
      abs_of_nonneg (le_max_left _ _)
    rw [h1, h2]
    have h3 : 1 / v.length * v.length = 1 := by
      field_simp
    rw [h3, mul_one]
    exact max_le h (min_le_left _ _)

end Vec3

/-- `class Spaceship` (src/main.ts lines 6-18): a kinematic body with
position and velocity. -/
structure Spaceship where
  position : Vec3
  velocity : Vec3

/-- `Spaceship.update(dt)` (line 15-17):
`this.position.add(this.velocity.clone().multiplyScalar(dt))`. -/
noncomputable def Spaceship.update (s : Spaceship) (dt : ℝ) : Spaceship :=
  { s with position := s.position + dt • s.velocity }

/-- `class Pursuer extends Spaceship` (lines 20-105): steering agent with
acceleration accumulator, cached unit heading, and vision-cone parameters. -/
structure Pursuer where
  position : Vec3
  velocity : Vec3
  acceleration : Vec3
  direction : Vec3
  maxSpeed : ℝ
  maxSteerForce : ℝ
  visionDistance : ℝ
  visionAngle : ℝ

/-- `Pursuer` constructor (lines 28-41): acceleration and direction start
at the zero vector, and `visionAngle` is a degree value converted to
radians by `visionAngle * (Math.PI / 180)`. -/
noncomputable def Pursuer.init (position velocity : Vec3)
    (maxSpeed maxSteerForce visionDistance visionAngleDeg : ℝ) : Pursuer :=
  { position := position
    velocity := velocity
    acceleration := 0
    direction := 0
    maxSpeed := maxSpeed
    maxSteerForce := maxSteerForce
    visionDistance := visionDistance
    visionAngle := visionAngleDeg * (Real.pi / 180) }

/-- `Pursuer.update(dt)` (lines 43-49): integrate acceleration into
velocity, clamp the velocity magnitude to `[0, maxSpeed]`, integrate the
clamped velocity into position, reset the acceleration accumulator, and
recompute the unit heading from the clamped velocity. -/
noncomputable def Pursuer.update (p : Pursuer) (dt : ℝ) : Pursuer :=
  let v1 := p.velocity + dt • p.acceleration
  let v2 := Vec3.clampLength 0 p.maxSpeed v1
  { p with
    velocity := v2
    position := p.position + dt • v2
    acceleration := 0
    direction := v2.normalize }

/-- `Pursuer.pursueTarget(target)` (lines 51-60): seek steering force
`clampLength(normalize(target.position - position) * maxSpeed - velocity,
0, maxSteerForce)` added into the acceleration accumulator. -/
noncomputable def Pursuer.pursueTarget (p : Pursuer) (t : Spaceship) : Pursuer :=
  let offsetToTarget := t.position - p.position
  let force := Vec3.clampLength 0 p.maxSteerForce
    (p.maxSpeed • offsetToTarget.normalize - p.velocity)
  { p with acceleration := p.acceleration + force }

/-- The cosine clamp of `didCatchTarget` (lines 86-90): values below `-1`
become `-1`, values above `1` become `1`. -/
noncomputable def clampCosine (q : ℝ) : ℝ :=
  if q < -1 then -1 else if q > 1 then 1 else q

/-- The raw dot-product denominator of `didCatchTarget` (line 76):
`Math.sqrt(directionLengthSq * targetLengthSq)`. -/
noncomputable def Pursuer.detectionDenomRaw (p : Pursuer) (t : Spaceship) : ℝ :=
  Real.sqrt (p.direction.lengthSq * t.position.lengthSq)

/-- The clamped cosine argument of `didCatchTarget` (lines 76-90): the dot
product of the heading with the target's absolute position, divided by the
denominator (with the `Math.PI / 2` fallback when it is zero), clamped to
`[-1, 1]`. -/
noncomputable def Pursuer.detectionTheta (p : Pursuer) (t : Spaceship) : ℝ :=
  let denominator :=
    if p.detectionDenomRaw t = 0 then Real.pi / 2 else p.detectionDenomRaw t
  clampCosine (p.direction.dot t.position / denominator)

/-- The detection angle of `didCatchTarget` (line 91): `Math.acos(theta)`. -/
noncomputable def Pursuer.detectionAngle (p : Pursuer) (t : Spaceship) : ℝ :=
  Real.arccos (p.detectionTheta t)

/-- `Pursuer.didCatchTarget(target)` (lines 62-104): true iff the target
is within `visionDistance` and the detection angle is at most
`visionAngle / 2`. -/
noncomputable def Pursuer.didCatchTarget (p : Pursuer) (t : Spaceship) : Bool :=
  if (p.position - t.position).length ≤ p.visionDistance then
    if p.detectionAngle t ≤ p.visionAngle / 2 then true else false
  else false

/-- `class Settings` (lines 107-115): the configuration snapshot read at
`Simulation` construction. -/
@[ext] structure Settings where
  targetVelocity : Vec3
  pursuerPosition : Vec3
  pursuerVelocity : Vec3
  maxSpeed : ℝ
  maxSteerForce : ℝ
  visionDistance : ℝ
  visionAngle : ℝ

/-- The default `Settings` field values (lines 108-114). -/
noncomputable def defaultSettings : Settings :=
  { targetVelocity := ⟨10, 0, 0⟩
    pursuerPosition := ⟨-10, -5, 5⟩
    pursuerVelocity := ⟨-10, 8, 4⟩
    maxSpeed := 20
    maxSteerForce := 5
    visionDistance := 5
    visionAngle := 45 }

/-- `class Simulation` (lines 117-150): one target, one pursuer, elapsed
time and the finished flag. -/
structure Simulation where
  target : Spaceship
  pursuer : Pursuer
  time : ℝ
  finished : Bool

/-- `Simulation` constructor (lines 123-136): target at the world origin
with the configured velocity, pursuer built from the configured position,
velocity and tuning parameters; `time = 0`, `finished = false`. -/
noncomputable def Simulation.init (settings : Settings) : Simulation :=
  { target := { position := 0, velocity := settings.targetVelocity }
    pursuer := Pursuer.init settings.pursuerPosition settings.pursuerVelocity
      settings.maxSpeed settings.maxSteerForce settings.visionDistance
      settings.visionAngle
    time := 0
    finished := false }

/-- `Simulation.update(dt)` (lines 138-149): no-op when finished;
otherwise advance time, apply the steering force, advance both bodies, and
evaluate the catch predicate on the updated bodies. -/
noncomputable def Simulation.update (s : Simulation) (dt : ℝ) : Simulation :=
  if s.finished then s
  else
    let pursuer1 := s.pursuer.pursueTarget s.target
    let target1 := s.target.update dt
    let pursuer2 := pursuer1.update dt
    { target := target1
      pursuer := pursuer2
      time := s.time + dt
      finished := pursuer2.didCatchTarget target1 }

/-- Folding `Simulation.update` over a finite list of frame deltas. -/
noncomputable def Simulation.run (s : Simulation) (dts : List ℝ) : Simulation :=
  dts.foldl Simulation.update s

lemma detectionDenomRaw_eq (p : Pursuer) (t : Spaceship) :
    p.detectionDenomRaw t = p.direction.length * t.position.length := by
  unfold Pursuer.detectionDenomRaw Vec3.length
  rw [Real.sqrt_mul (Vec3.lengthSq_nonneg _)]

lemma detectionDenomRaw_eq_zero_iff (p : Pursuer) (t : Spaceship) :
    p.detectionDenomRaw t = 0 ↔ p.direction = 0 ∨ t.position = 0 := by
  rw [detectionDenomRaw_eq, mul_eq_zero, Vec3.length_eq_zero_iff,
    Vec3.length_eq_zero_iff]

lemma dot_eq_zero_of_degenerate (p : Pursuer) (t : Spaceship)
    (h : p.direction = 0 ∨ t.position = 0) : p.direction.dot t.position = 0 := by
  rcases h with h | h <;> rw [h] <;> simp

@[simp] lemma clampCosine_zero : clampCosine 0 = 0 := by
  unfold clampCosine
  norm_num

/-- The code's clamped cosine equals the spec formula's: the dot product
divided by the product of the two lengths, clamped to `[-1, 1]`.  In the
zero-denominator case the dot product is itself zero, so the `π/2`
fallback divides zero and agrees with real division by zero. -/
lemma detectionTheta_eq_spec (p : Pursuer) (t : Spaceship) :
    p.detectionTheta t =
      clampCosine (p.direction.dot t.position /
        (p.direction.length * t.position.length)) := by
  by_cases h : p.detectionDenomRaw t = 0
  · have hdot := dot_eq_zero_of_degenerate p t
      ((detectionDenomRaw_eq_zero_iff p t).mp h)
    simp [Pursuer.detectionTheta, h, hdot]
  · simp only [Pursuer.detectionTheta, if_neg h]
    rw [detectionDenomRaw_eq]

lemma detectionAngle_of_degenerate (p : Pursuer) (t : Spaceship)
    (h : p.direction = 0 ∨ t.position = 0) :
    p.detectionAngle t = Real.pi / 2 := by
  have hden : p.detectionDenomRaw t = 0 := (detectionDenomRaw_eq_zero_iff p t).mpr h
  have hdot := dot_eq_zero_of_degenerate p t h
  unfold Pursuer.detectionAngle
  simp [Pursuer.detectionTheta, hden, hdot, Real.arccos_zero]

lemma Simulation.update_of_finished (s : Simulation) (h : s.finished = true)
    (dt : ℝ) : s.update dt = s := by
  simp [Simulation.update, h]

lemma Simulation.run_of_finished (s : Simulation) (h : s.finished = true)
    (dts : List ℝ) : s.run dts = s := by
  induction dts with
  | nil => rfl
  | cons d rest ih =>
    show Simulation.run (s.update d) rest = s
    rw [Simulation.update_of_finished s h d]
    exact ih

/-- A stationary target three units along the x-axis. -/
noncomputable def wTarget : Spaceship := { position := ⟨3, 0, 0⟩, velocity := ⟨0, 0, 0⟩ }

/-- A stationary target ten units along the x-axis, outside vision range 5. -/
noncomputable def wTargetFar : Spaceship := { position := ⟨10, 0, 0⟩, velocity := ⟨0, 0, 0⟩ }

/-- A pursuer at the origin with zero velocity and zero heading. -/
noncomputable def wPursuerStill : Pursuer :=
  { position := ⟨0, 0, 0⟩
    velocity := ⟨0, 0, 0⟩
    acceleration := 0
    direction := 0
    maxSpeed := 20
    maxSteerForce := 5
    visionDistance := 5
    visionAngle := Real.pi / 4 }

/-- A pursuer at the origin heading along the positive x-axis. -/
noncomputable def wPursuerAimed : Pursuer :=
  { position := ⟨0, 0, 0⟩
    velocity := ⟨20, 0, 0⟩
    acceleration := 0
    direction := ⟨1, 0, 0⟩
    maxSpeed := 20
    maxSteerForce := 5
    visionDistance := 5
    visionAngle := Real.pi / 2 }

/-- A simulation whose finished flag is set. -/
noncomputable def simFinished : Simulation :=
  { target := wTarget, pursuer := wPursuerStill, time := 0, finished := true }

/-- A running simulation. -/
noncomputable def simRunning : Simulation :=
  { target := wTarget, pursuer := wPursuerStill, time := 0, finished := false }

lemma sqrt_nine : Real.sqrt 9 = 3 := by
  rw [show (9 : ℝ) = 3 ^ 2 by norm_num, Real.sqrt_sq (by norm_num : (0 : ℝ) ≤ 3)]

lemma sqrt_hundred : Real.sqrt 100 = 10 := by
  rw [show (100 : ℝ) = 10 ^ 2 by norm_num, Real.sqrt_sq (by norm_num : (0 : ℝ) ≤ 10)]

lemma dist_still_to_wTarget : (wPursuerStill.position - wTarget.position).length = 3 := by
  simp only [wPursuerStill, wTarget, Vec3.length, Vec3.lengthSq, Vec3.sub_x,
    Vec3.sub_y, Vec3.sub_z]
  norm_num [sqrt_nine]

lemma dist_aimed_to_wTarget : (wPursuerAimed.position - wTarget.position).length = 3 := by
  simp only [wPursuerAimed, wTarget, Vec3.length, Vec3.lengthSq, Vec3.sub_x,
    Vec3.sub_y, Vec3.sub_z]
  norm_num [sqrt_nine]

lemma dist_aimed_to_wTargetFar :
    (wPursuerAimed.position - wTargetFar.position).length = 10 := by
  simp only [wPursuerAimed, wTargetFar, Vec3.length, Vec3.lengthSq, Vec3.sub_x,
    Vec3.sub_y, Vec3.sub_z]
  norm_num [sqrt_hundred]

/-- Claim C6: for every `MovingBody` state and every real `dt` (negative
included), `Spaceship.update dt` sets the position to
`position + velocity * dt` exactly, leaves the velocity unchanged, and
mutates nothing else. -/
theorem claim_C6 (s : Spaceship) (dt : ℝ) :
    s.update dt = { position := s.position + dt • s.velocity, velocity := s.velocity } :=
  rfl

/-- Claim C1: `Simulation.update dt` is a no-op when `finished` holds;
otherwise it advances time by `dt`, applies the pursuit steering force,
advances the target then the pursuer, and stores the result of the catch
predicate evaluated on the updated pursuer and target in `finished`. -/
theorem claim_C1 (s : Simulation) (dt : ℝ) :
    (s.finished = true → s.update dt = s) ∧
    (s.finished = false →
      s.update dt =
        { target := s.target.update dt
          pursuer := (s.pursuer.pursueTarget s.target).update dt
          time := s.time + dt
          finished := ((s.pursuer.pursueTarget s.target).update dt).didCatchTarget
            (s.target.update dt) }) := by
  constructor
  · intro h
    simp [Simulation.update, h]
  · intro h
    simp [Simulation.update, h]

/-- Witness for C1 at a finished and a running concrete simulation. -/
theorem claim_C1_witness :
    (simFinished.finished = true ∧ simFinished.update 1 = simFinished) ∧
    (simRunning.finished = false ∧
      simRunning.update 1 =
        { target := simRunning.target.update 1
          pursuer := (simRunning.pursuer.pursueTarget simRunning.target).update 1
          time := simRunning.time + 1
          finished :=
            ((simRunning.pursuer.pursueTarget simRunning.target).update 1).didCatchTarget
              (simRunning.target.update 1) }) :=
  ⟨⟨rfl, (claim_C1 simFinished 1).1 rfl⟩, ⟨rfl, (claim_C1 simRunning 1).2 rfl⟩⟩

/-- Claim C5: once `finished` is set, any further sequence of updates
leaves the time and both bodies' positions and velocities unchanged. -/
theorem claim_C5 (s : Simulation) (dts : List ℝ) (h : s.finished = true) :
    (s.run dts).time = s.time ∧
    (s.run dts).target.position = s.target.position ∧
    (s.run dts).target.velocity = s.target.velocity ∧
    (s.run dts).pursuer.position = s.pursuer.position ∧
    (s.run dts).pursuer.velocity = s.pursuer.velocity := by
  rw [Simulation.run_of_finished s h dts]
  exact ⟨rfl, rfl, rfl, rfl, rfl⟩

/-- Witness for C5 at a finished concrete simulation and deltas `[1, 2]`. -/
theorem claim_C5_witness :
    simFinished.finished = true ∧
    ((simFinished.run [1, 2]).time = simFinished.time ∧
      (simFinished.run [1, 2]).target.position = simFinished.target.position ∧
      (simFinished.run [1, 2]).target.velocity = simFinished.target.velocity ∧
      (simFinished.run [1, 2]).pursuer.position = simFinished.pursuer.position ∧
      (simFinished.run [1, 2]).pursuer.velocity = simFinished.pursuer.velocity) :=
  ⟨rfl, claim_C5 simFinished [1, 2] rfl⟩

/-- Claim C8: two simulations constructed from `Settings` with identical
field values and driven by the same delta sequence have identical target
positions, pursuer positions and velocities, times, and finished flags. -/
theorem claim_C8 (s1 s2 : Settings)
    (h1 : s1.targetVelocity = s2.targetVelocity)
    (h2 : s1.pursuerPosition = s2.pursuerPosition)
    (h3 : s1.pursuerVelocity = s2.pursuerVelocity)
    (h4 : s1.maxSpeed = s2.maxSpeed)
    (h5 : s1.maxSteerForce = s2.maxSteerForce)
    (h6 : s1.visionDistance = s2.visionDistance)
    (h7 : s1.visionAngle = s2.visionAngle)
    (dts : List ℝ) :
    ((Simulation.init s1).run dts).target.position
        = ((Simulation.init s2).run dts).target.position ∧
    ((Simulation.init s1).run dts).pursuer.position
        = ((Simulation.init s2).run dts).pursuer.position ∧
    ((Simulation.init s1).run dts).pursuer.velocity
        = ((Simulation.init s2).run dts).pursuer.velocity ∧
    ((Simulation.init s1).run dts).time = ((Simulation.init s2).run dts).time ∧
    ((Simulation.init s1).run dts).finished = ((Simulation.init s2).run dts).finished := by
  have hs : s1 = s2 := Settings.ext h1 h2 h3 h4 h5 h6 h7
  subst hs
  exact ⟨rfl, rfl, rfl, rfl, rfl⟩

/-- Claim C3: after `Pursuer.update dt` the velocity magnitude is at most
`maxSpeed` (whatever the incoming velocity and accumulated acceleration
were, given the data-model invariant `0 ≤ maxSpeed`), and the position
increment uses the already-clamped velocity. -/
theorem claim_C3 (p : Pursuer) (dt : ℝ) (h : 0 ≤ p.maxSpeed) :
    (p.update dt).velocity.length ≤ p.maxSpeed ∧
    (p.update dt).position = p.position + dt • (p.update dt).velocity := by
  constructor
  · show (Vec3.clampLength 0 p.maxSpeed (p.velocity + dt • p.acceleration)).length
      ≤ p.maxSpeed
    exact Vec3.length_clampLength_le p.maxSpeed h _
  · rfl

/-- Witness for C3 at a concrete pursuer and `dt = 1`. -/
theorem claim_C3_witness :
    (0 : ℝ) ≤ wPursuerAimed.maxSpeed ∧
    ((wPursuerAimed.update 1).velocity.length ≤ wPursuerAimed.maxSpeed ∧
      (wPursuerAimed.update 1).position
        = wPursuerAimed.position + (1 : ℝ) • (wPursuerAimed.update 1).velocity) :=
  ⟨by norm_num [wPursuerAimed], claim_C3 wPursuerAimed 1 (by norm_num [wPursuerAimed])⟩

/-- Claim C4: for a target position distinct from the pursuer's,
`pursueTarget` adds exactly
`clampLength(normalize(target.position - position) * maxSpeed - velocity,
0, maxSteerForce)` to the acceleration, that force's magnitude is at most
`maxSteerForce` (given the data-model invariant `0 ≤ maxSteerForce`), and
no other field changes. -/
theorem claim_C4 (p : Pursuer) (t : Spaceship)
    (hne : t.position ≠ p.position) (h : 0 ≤ p.maxSteerForce) :
    p.pursueTarget t =
      { p with
          acceleration :=
            p.acceleration + Vec3.clampLength 0 p.maxSteerForce
              (p.maxSpeed • (t.position - p.position).normalize - p.velocity) } ∧
    (Vec3.clampLength 0 p.maxSteerForce
        (p.maxSpeed • (t.position - p.position).normalize - p.velocity)).length
      ≤ p.maxSteerForce :=
  ⟨rfl, Vec3.length_clampLength_le _ h _⟩

/-- Witness for C4 at a concrete pursuer and a distinct target. -/
theorem claim_C4_witness :
    wTarget.position ≠ wPursuerAimed.position ∧
    (0 : ℝ) ≤ wPursuerAimed.maxSteerForce ∧
    (wPursuerAimed.pursueTarget wTarget =
      { wPursuerAimed with
          acceleration :=
            wPursuerAimed.acceleration + Vec3.clampLength 0 wPursuerAimed.maxSteerForce
              (wPursuerAimed.maxSpeed •
                (wTarget.position - wPursuerAimed.position).normalize
                - wPursuerAimed.velocity) } ∧
    (Vec3.clampLength 0 wPursuerAimed.maxSteerForce
        (wPursuerAimed.maxSpeed •
          (wTarget.position - wPursuerAimed.position).normalize
          - wPursuerAimed.velocity)).length ≤ wPursuerAimed.maxSteerForce) := by
  have hne : wTarget.position ≠ wPursuerAimed.position := by
    intro hEq
    have hx := congrArg Vec3.x hEq
    norm_num [wTarget, wPursuerAimed] at hx
  have hms : (0 : ℝ) ≤ wPursuerAimed.maxSteerForce := by norm_num [wPursuerAimed]
  exact ⟨hne, hms, claim_C4 wPursuerAimed wTarget hne hms⟩

/-- Claim C9: when the target position coincides with the pursuer's, the
zero offset normalizes to the zero vector, the desired velocity is zero,
and the force added is the clamped negation of the current velocity. -/
theorem claim_C9 (p : Pursuer) (t : Spaceship) (h : t.position = p.position) :
    p.pursueTarget t =
      { p with
          acceleration :=
            p.acceleration + Vec3.clampLength 0 p.maxSteerForce (-p.velocity) } := by
  unfold Pursuer.pursueTarget
  rw [h]
  simp

/-- A target sitting exactly on the still pursuer's position. -/
noncomputable def wTargetAtOrigin : Spaceship :=
  { position := ⟨0, 0, 0⟩, velocity := ⟨10, 0, 0⟩ }

/-- Witness for C9 at a coincident concrete pair. -/
theorem claim_C9_witness :
    wTargetAtOrigin.position = wPursuerStill.position ∧
    wPursuerStill.pursueTarget wTargetAtOrigin =
      { wPursuerStill with
          acceleration :=
            wPursuerStill.acceleration +
              Vec3.clampLength 0 wPursuerStill.maxSteerForce (-wPursuerStill.velocity) } :=
  ⟨rfl, claim_C9 wPursuerStill wTargetAtOrigin rfl⟩

/-- Witness for C8: the default settings against themselves on `[1]`. -/
theorem claim_C8_witness :
    ((Simulation.init defaultSettings).run [1]).target.position
        = ((Simulation.init defaultSettings).run [1]).target.position ∧
    ((Simulation.init defaultSettings).run [1]).pursuer.position
        = ((Simulation.init defaultSettings).run [1]).pursuer.position ∧
    ((Simulation.init defaultSettings).run [1]).pursuer.velocity
        = ((Simulation.init defaultSettings).run [1]).pursuer.velocity ∧
    ((Simulation.init defaultSettings).run [1]).time
        = ((Simulation.init defaultSettings).run [1]).time ∧
    ((Simulation.init defaultSettings).run [1]).finished
        = ((Simulation.init defaultSettings).run [1]).finished :=
  claim_C8 defaultSettings defaultSettings rfl rfl rfl rfl rfl rfl rfl [1]

/-- Claim C2: `didCatchTarget` is false beyond `visionDistance`, and within
range it is true exactly when the arc-cosine of the clamped ratio of the
heading-to-absolute-target-position dot product over the product of the two
lengths is at most `visionAngle / 2`. -/
theorem claim_C2 (p : Pursuer) (t : Spaceship) :
    ((p.position - t.position).length > p.visionDistance →
      p.didCatchTarget t = false) ∧
    ((p.position - t.position).length ≤ p.visionDistance →
      (p.didCatchTarget t = true ↔
        Real.arccos (clampCosine (p.direction.dot t.position /
          (p.direction.length * t.position.length))) ≤ p.visionAngle / 2)) := by
  constructor
  · intro h
    unfold Pursuer.didCatchTarget
    rw [if_neg (not_le.mpr h)]
  · intro h
    have hangle : p.detectionAngle t =
        Real.arccos (clampCosine (p.direction.dot t.position /
          (p.direction.length * t.position.length))) := by
      unfold Pursuer.detectionAngle
      rw [detectionTheta_eq_spec]
    rw [← hangle]
    unfold Pursuer.didCatchTarget
    rw [if_pos h]
    split_ifs with h2
    · simp [h2]
    · simp [h2]

/-- Witness for C2: a target out of range is not caught, and a target
three units dead ahead within range five satisfies the angular test. -/
theorem claim_C2_witness :
    ((wPursuerAimed.position - wTargetFar.position).length
        > wPursuerAimed.visionDistance ∧
      wPursuerAimed.didCatchTarget wTargetFar = false) ∧
    ((wPursuerAimed.position - wTarget.position).length
        ≤ wPursuerAimed.visionDistance ∧
      (wPursuerAimed.didCatchTarget wTarget = true ↔
        Real.arccos (clampCosine (wPursuerAimed.direction.dot wTarget.position /
          (wPursuerAimed.direction.length * wTarget.position.length)))
          ≤ wPursuerAimed.visionAngle / 2)) := by
  have h1 : (wPursuerAimed.position - wTargetFar.position).length
      > wPursuerAimed.visionDistance := by
    rw [dist_aimed_to_wTargetFar]
    norm_num [wPursuerAimed]
  have h2 : (wPursuerAimed.position - wTarget.position).length
      ≤ wPursuerAimed.visionDistance := by
    rw [dist_aimed_to_wTarget]
    norm_num [wPursuerAimed]
  exact ⟨⟨h1, (claim_C2 wPursuerAimed wTargetFar).1 h1⟩,
    ⟨h2, (claim_C2 wPursuerAimed wTarget).2 h2⟩⟩

/-- Counterexample to C7: a pursuer with zero heading within range of a
target. The denominator is zero, the `π/2` fallback kicks in, yet the
computed angle equals `π/2` exactly — it is not strictly below `π/2`, so
the fallback does not force a small-angle result. -/
theorem claim_C7_counterexample :
    wPursuerStill.detectionDenomRaw wTarget = 0 ∧
    (wPursuerStill.position - wTarget.position).length
      ≤ wPursuerStill.visionDistance ∧
    wPursuerStill.detectionAngle wTarget = Real.pi / 2 ∧
    ¬ wPursuerStill.detectionAngle wTarget < Real.pi / 2 := by
  have hden : wPursuerStill.detectionDenomRaw wTarget = 0 :=
    (detectionDenomRaw_eq_zero_iff _ _).mpr (Or.inl rfl)
  have hang : wPursuerStill.detectionAngle wTarget = Real.pi / 2 :=
    detectionAngle_of_degenerate _ _ (Or.inl rfl)
  refine ⟨hden, ?_, hang, ?_⟩
  · rw [dist_still_to_wTarget]
    norm_num [wPursuerStill]
  · rw [hang]
    exact lt_irrefl _

/-- Claim C7 (amended): when the dot-product denominator is exactly zero
the dot product is also zero, so substituting `π/2` as the denominator
yields a computed angle of exactly `π/2` — a true right angle, not a
strictly smaller angle. -/
theorem claim_C7_amended (p : Pursuer) (t : Spaceship)
    (h : p.detectionDenomRaw t = 0) :
    p.direction.dot t.position = 0 ∧ p.detectionAngle t = Real.pi / 2 := by
  have hdeg := (detectionDenomRaw_eq_zero_iff p t).mp h
  exact ⟨dot_eq_zero_of_degenerate p t hdeg, detectionAngle_of_degenerate p t hdeg⟩

/-- Witness for the amended C7 at a concrete zero-heading pursuer. -/
theorem claim_C7_witness :
    wPursuerStill.detectionDenomRaw wTarget = 0 ∧
    (wPursuerStill.direction.dot wTarget.position = 0 ∧
      wPursuerStill.detectionAngle wTarget = Real.pi / 2) := by
  have h : wPursuerStill.detectionDenomRaw wTarget = 0 :=
    (detectionDenomRaw_eq_zero_iff _ _).mpr (Or.inl rfl)
  exact ⟨h, claim_C7_amended wPursuerStill wTarget h⟩

/-- Claim C10: with the target at the origin or a zero heading, and the
target within range, the dot product is zero and the angle is exactly
`π/2`, so detection succeeds only when `visionAngle / 2 ≥ π/2`; the
constructor maps a degree value in `(0, 90]` to at most `π/2 < π` radians,
so such a pursuer never detects such a target. -/
theorem claim_C10 (p : Pursuer) (t : Spaceship)
    (hdist : (p.position - t.position).length ≤ p.visionDistance)
    (hdeg : t.position = 0 ∨ p.direction = 0) :
    p.direction.dot t.position = 0 ∧
    p.detectionAngle t = Real.pi / 2 ∧
    (p.didCatchTarget t = true ↔ Real.pi / 2 ≤ p.visionAngle / 2) ∧
    (p.visionAngle < Real.pi → p.didCatchTarget t = false) ∧
    (∀ pos vel : Vec3, ∀ ms msf vd deg : ℝ, 0 < deg → deg ≤ 90 →
      (Pursuer.init pos vel ms msf vd deg).visionAngle ≤ Real.pi / 2 ∧
      (Pursuer.init pos vel ms msf vd deg).visionAngle < Real.pi) := by
  have hdeg2 : p.direction = 0 ∨ t.position = 0 := hdeg.symm
  have hdot := dot_eq_zero_of_degenerate p t hdeg2
  have hang := detectionAngle_of_degenerate p t hdeg2
  have hiff : p.didCatchTarget t = true ↔ Real.pi / 2 ≤ p.visionAngle / 2 := by
    unfold Pursuer.didCatchTarget
    rw [if_pos hdist, hang]
    split_ifs with h2
    · simp [h2]
    · simp [h2]
  refine ⟨hdot, hang, hiff, ?_, ?_⟩
  · intro hlt
    rcases Bool.eq_false_or_eq_true (p.didCatchTarget t) with ht | hf
    · exfalso
      have := hiff.mp ht
      linarith
    · exact hf
  · intro pos vel ms msf vd deg h0 h90
    constructor
    · show deg * (Real.pi / 180) ≤ Real.pi / 2
      nlinarith [Real.pi_pos]
    · show deg * (Real.pi / 180) < Real.pi
      nlinarith [Real.pi_pos]

/-- Witness for C10: the zero-heading pursuer three units from its target
(vision half-angle `π/8`) never detects it. -/
theorem claim_C10_witness :
    (wPursuerStill.position - wTarget.position).length
      ≤ wPursuerStill.visionDistance ∧
    (wTarget.position = 0 ∨ wPursuerStill.direction = 0) ∧
    wPursuerStill.direction.dot wTarget.position = 0 ∧
    wPursuerStill.detectionAngle wTarget = Real.pi / 2 ∧
    wPursuerStill.didCatchTarget wTarget = false := by
  have hdist : (wPursuerStill.position - wTarget.position).length
      ≤ wPursuerStill.visionDistance := by
    rw [dist_still_to_wTarget]
    norm_num [wPursuerStill]
  have hdeg : wTarget.position = 0 ∨ wPursuerStill.direction = 0 := Or.inr rfl
  have h := claim_C10 wPursuerStill wTarget hdist hdeg
  have hlt : wPursuerStill.visionAngle < Real.pi := by
    show Real.pi / 4 < Real.pi
    linarith [Real.pi_pos]
  exact ⟨hdist, hdeg, h.1, h.2.1, h.2.2.2.1 hlt⟩
